import Mathlib

/-!
Shallow embedding of the daily-mix allocation optimizer with class-level
reallocation (src/modelo_otimizacao_com_realocacao.py).

Conventions of the embedding:
* pandas DataFrames become lists of structures; row order is the source
  table's row order (pandas merges preserve left-frame order, filters are
  row-local).
* monetary values and quantities (Python floats) become rationals;
  a missing value (NaN) becomes an `Option` that is `none`, so that
  `mean` of an empty column is `none` and any comparison with `none`
  fails, exactly as NaN > 0 is false in pandas.
* `merge(..., how=left)` against a key-deduplicated table becomes a
  `find?` lookup (first match), `fillna(0)` becomes `getD 0`.
* the LP solver is modelled by its feasible set: an assignment of values
  to the created decision variables is `Viavel` when it satisfies every
  variable bound and every constraint the code adds to the solver.
-/

namespace Realocacao

/-! ## List helpers mirroring pandas primitives -/

/-- Helper for `dedupKeys`: drops elements whose key was already seen. -/
def dedupKeysAux {α κ : Type} [DecidableEq κ] (key : α → κ) : List α → List κ → List α
  | [], _ => []
  | a :: as, seen =>
    if key a ∈ seen then dedupKeysAux key as seen
    else a :: dedupKeysAux key as (key a :: seen)

/-- Pandas drop_duplicates on a key: keeps the first occurrence of each key. -/
def dedupKeys {α κ : Type} [DecidableEq κ] (key : α → κ) (l : List α) : List α :=
  dedupKeysAux key l []

/-- Mean of a list of rationals; `none` on the empty list (pandas mean of an
empty column is NaN). -/
def listMean (l : List ℚ) : Option ℚ :=
  if l = [] then none else some (l.sum / (l.length : ℚ))

/-- Pandas groupby(key)[val].sum(): one pair per distinct key, in first-occurrence
order, carrying the sum of `val` over the key's rows. -/
def sumByKey {α κ : Type} [DecidableEq κ] (key : α → κ) (val : α → ℚ) (l : List α) :
    List (κ × ℚ) :=
  (dedupKeys id (l.map key)).map (fun k => (k, ((l.filter (fun a => key a = k)).map val).sum))

/-! ## Input tables (schemas of section 3 / section 6 of the spec) -/

/-- One row of the aggregated production-by-class table
(`producao_classe.csv` after `groupby('Classe_Produto').sum()`). -/
structure ProducaoRow where
  classe : String
  producao_total : ℚ
deriving DecidableEq

/-- One row of the SKU-to-class mapping (`base_skus_classes.xlsx`). -/
structure ClassRow where
  item : Nat
  classe : String
deriving DecidableEq

/-- One row of the cost table after parsing (`CUSTO ITEM.csv`): the package
descriptor has already been extracted from the description and the currency
parsed; `item_id` is the pair (item code, package descriptor). -/
structure CostRow where
  item : Nat
  embalagem : String
  custo_ytd : ℚ
deriving DecidableEq

/-- One row of the price table keyed by item_id
(`precos_sku_embalagem.csv`). -/
structure PriceRow where
  item_id : Nat × String
  preco : ℚ
deriving DecidableEq

/-- One raw customer-order row (`pedidos_clientes.csv`); the customer code is
irrelevant to the optimizer after aggregation. -/
structure PedidoRow where
  item : Nat
  quantidade_pedida : ℚ
deriving DecidableEq

/-- One row of the per-SKU aggregated orders (`pedidos_por_sku`). -/
structure PedidoSku where
  item : Nat
  qtd : ℚ
deriving DecidableEq

/-- One row of the historical-demand ceiling table (`demanda_historica`).
The statistical derivation of `demanda_max` (percentile x expansion or
maximum x factor over the chosen granularity) happens in
`_carregar_demanda_historica` and is taken here as an input table. -/
structure DemandaRow where
  item : Nat
  demanda_max : ℚ
deriving DecidableEq

/-- The policy / model configuration keys read from `config.yaml`. -/
structure Config where
  atender_pedidos : Bool
  usar_apenas_excedente : Bool
  considerar_demanda_historica : Bool
  tipo_objetivo : String
deriving DecidableEq

/-- The source files consumed by `carregar_dados`.  `precosArquivo` and
`pedidosArquivo` are `none` when the corresponding file does not exist
(the two loads that degrade instead of raising). -/
structure Entradas where
  producaoArquivo : List (String × ℚ)
  classes : List ClassRow
  custosArquivo : List CostRow
  precosArquivo : Option (List PriceRow)
  pedidosArquivo : Option (List PedidoRow)
  demanda : List DemandaRow

/-! ## Loading (`_carregar_*`) -/

/-- Load step of `_carregar_producao`: aggregate by class, keep positive totals. -/
def carregarProducao (raw : List (String × ℚ)) : List ProducaoRow :=
  ((sumByKey Prod.fst Prod.snd raw).filter (fun kv => 0 < kv.2)).map
    (fun kv => { classe := kv.1, producao_total := kv.2 })

/-- Load step of `_carregar_precos`: on a missing file, log a warning (first component)
and fall back to an empty table; otherwise keep positive prices and drop
duplicate item_ids. -/
def carregarPrecos (arq : Option (List PriceRow)) : Bool × List PriceRow :=
  match arq with
  | none => (true, [])
  | some rows => (false, dedupKeys (fun p => p.item_id) (rows.filter (fun p => 0 < p.preco)))

/-- Load step of `_carregar_pedidos`: on a missing file, log a warning and continue with
no orders; otherwise keep positive quantities and aggregate per SKU. -/
def carregarPedidos (arq : Option (List PedidoRow)) : Bool × List PedidoSku :=
  match arq with
  | none => (true, [])
  | some rows =>
    (false,
      (sumByKey (fun r => r.item) (fun r => r.quantidade_pedida)
        (rows.filter (fun r => 0 < r.quantidade_pedida))).map
        (fun kv => { item := kv.1, qtd := kv.2 }))

/-- Load step of `_carregar_custos`: drop duplicate item_ids, keeping the first row. -/
def carregarCustos (rows : List CostRow) : List CostRow :=
  dedupKeys (fun c => (c.item, c.embalagem)) rows

/-! ## Reconciliation (`_preparar_dados_otimizacao`) -/

/-- Exact price lookup by item_id (the left merge of the base with
`df_precos` on `item_id`). -/
def lookupPreco (precos : List PriceRow) (i : Nat × String) : Option ℚ :=
  (precos.find? (fun p => p.item_id = i)).map (fun p => p.preco)

/-- The prices of a SKU's priced packages, as the code builds them:
`df_precos.merge(df_custos[[item_id, item]], on=item_id).groupby(item)`,
so a price row participates only when its item_id also appears in the
cost table. -/
def precosDoSku (precos : List PriceRow) (custos : List CostRow) (s : Nat) : List ℚ :=
  (precos.filter (fun p =>
    p.item_id.1 = s ∧ custos.any (fun c => c.item = p.item_id.1 ∧ c.embalagem = p.item_id.2))).map
    (fun p => p.preco)

/-- Three-tier price resolution of `_preparar_dados_otimizacao`:
exact item_id price, else mean over the SKU's priced packages, else the
global mean of the price table (NaN when the table is empty). -/
def resolvePreco (precos : List PriceRow) (custos : List CostRow) (c : CostRow) : Option ℚ :=
  match lookupPreco precos (c.item, c.embalagem) with
  | some p => some p
  | none =>
    match listMean (precosDoSku precos custos c.item) with
    | some m => some m
    | none => listMean (precos.map (fun p => p.preco))

/-- Production total of a class (left merge with `df_producao` plus
`fillna(0)`). -/
def producaoTotalClasse (producao : List ProducaoRow) (c : String) : ℚ :=
  ((producao.find? (fun r => r.classe = c)).map (fun r => r.producao_total)).getD 0

/-- Aggregated ordered quantity of a SKU (left merge with
`pedidos_por_sku` plus `fillna(0)`). -/
def qtdPedidaSku (pedidos : List PedidoSku) (s : Nat) : ℚ :=
  ((pedidos.find? (fun p => p.item = s)).map (fun p => p.qtd)).getD 0

/-- One row of the reconciled allocation base (`base_otimizacao`). -/
structure BaseRow where
  item_id : Nat × String
  item : Nat
  embalagem : String
  custo_ytd : ℚ
  classe : String
  preco : ℚ
  margem_unitaria : ℚ
  producao_total : ℚ
  qtd_pedida : ℚ
deriving DecidableEq

/-- The reconciled base: start from the cost rows, inner-merge the class
mapping, keep only classes with production, resolve prices, compute the
unit margin and drop rows with non-positive margin, price or cost, then
attach the class production and the SKU's ordered quantity. -/
def prepararBase (producao : List ProducaoRow) (classes : List ClassRow)
    (precos : List PriceRow) (custos : List CostRow) (pedidos : List PedidoSku) :
    List BaseRow :=
  custos.filterMap (fun c =>
    match classes.find? (fun m => m.item = c.item) with
    | none => none
    | some m =>
      if producao.any (fun pr => pr.classe = m.classe) then
        match resolvePreco precos custos c with
        | none => none
        | some p =>
          if 0 < p - c.custo_ytd ∧ 0 < p ∧ 0 < c.custo_ytd then
            some { item_id := (c.item, c.embalagem), item := c.item,
                   embalagem := c.embalagem, custo_ytd := c.custo_ytd,
                   classe := m.classe, preco := p,
                   margem_unitaria := p - c.custo_ytd,
                   producao_total := producaoTotalClasse producao m.classe,
                   qtd_pedida := qtdPedidaSku pedidos c.item }
          else none
      else none)

/-- Flag validation of `_preparar_dados_otimizacao`: with
`atender_pedidos=true` the surplus-only flag is forced to true (info log);
with `atender_pedidos=false` and surplus-only configured true it is forced
to false and a warning is logged (second component). -/
def ajustarFlags (atender usar : Bool) : Bool × Bool :=
  if atender then (true, false)
  else if usar then (false, true)
  else (usar, false)

/-- Everything `carregar_dados` leaves in `self.dados` that the model
builder consumes. -/
structure Preparado where
  base : List BaseRow
  producao : List ProducaoRow
  pedidos : List PedidoSku
  demanda : List DemandaRow
  atender : Bool
  usarEff : Bool
  avisoFlags : Bool
  avisoPrecos : Bool
  avisoPedidos : Bool
  considerarDemanda : Bool
  minimizarCustos : Bool

/-- The whole data-loading and reconciliation stage. -/
def prepararDados (cfg : Config) (e : Entradas) : Preparado :=
  let producao := carregarProducao e.producaoArquivo
  let cp := carregarPrecos e.precosArquivo
  let cq := carregarPedidos e.pedidosArquivo
  let custos := carregarCustos e.custosArquivo
  let base := prepararBase producao e.classes cp.2 custos cq.2
  let fl := ajustarFlags cfg.atender_pedidos cfg.usar_apenas_excedente
  { base := base
    producao := producao
    pedidos := cq.2
    demanda := if cfg.considerar_demanda_historica then e.demanda else []
    atender := cfg.atender_pedidos
    usarEff := fl.1
    avisoFlags := fl.2
    avisoPrecos := cp.1
    avisoPedidos := cq.1
    considerarDemanda := cfg.considerar_demanda_historica
    minimizarCustos := !(cfg.tipo_objetivo == "maximizar_margem") }

/-- The per-class order total as the code computes it:
`df_base.groupby('classe')['quantidade_total_pedida'].first()` followed by
an identity regrouping — i.e. the ordered quantity carried by the FIRST
base row of the class (0 when the aggregated order table is empty). -/
def pedidosPorClasse (pedidos : List PedidoSku) (base : List BaseRow) (c : String) : ℚ :=
  if pedidos.isEmpty then 0
  else ((base.find? (fun r => r.classe = c)).map (fun r => r.qtd_pedida)).getD 0

/-- Per-class surplus production: production minus the class's order total,
clipped at 0, when orders are fulfilled; otherwise the full production. -/
def excedenteClasse (P : Preparado) (c : String) : ℚ :=
  if P.atender then
    max 0 (producaoTotalClasse P.producao c - pedidosPorClasse P.pedidos P.base c)
  else producaoTotalClasse P.producao c

/-- Column `producao_disponivel_otimizacao_classe`: the capacity pool the
optimisation variables of a class may draw from. -/
def Preparado.dispo (P : Preparado) (c : String) : ℚ :=
  if !P.atender && !P.usarEff then producaoTotalClasse P.producao c
  else excedenteClasse P c

/-! ## Model construction (`criar_modelo`, `_adicionar_restricoes`,
`_definir_objetivo`) -/

/-- Upper bound of a SKU's order variable: the ordered quantity capped by
the available production of the first base row's class; 0 when the SKU has
no surviving base row. -/
def limiteAtendimento (P : Preparado) (p : PedidoSku) : ℚ :=
  match P.base.find? (fun r => r.item = p.item) with
  | some r => min p.qtd (P.dispo r.classe)
  | none => 0

/-- The order variables `y_pedido_<sku>` with their upper bounds; one is
created per aggregated order row whose bound is positive, only when orders
are fulfilled. -/
def variaveisPedidos (P : Preparado) : List (Nat × ℚ) :=
  if P.atender && !P.pedidos.isEmpty then
    (P.pedidos.filter (fun p => 0 < limiteAtendimento P p)).map
      (fun p => (p.item, limiteAtendimento P p))
  else []

/-- The allocation variables `x_<item_id>` with their upper bounds; one per
base row whose class has positive available production. -/
def variaveisAloc (P : Preparado) : List ((Nat × String) × ℚ) :=
  (P.base.filter (fun r => 0 < P.dispo r.classe)).map
    (fun r => (r.item_id, P.dispo r.classe))

/-- A linear constraint added to the solver. -/
inductive Restricao where
  | pedidoLe : Nat → ℚ → Restricao
  | classeLe : String → ℚ → Restricao
  | demandaLe : Nat × String → ℚ → Restricao
deriving DecidableEq

/-- RESTRICAO 1: explicit `y <= min(ordered, class available production)`
for every order row whose SKU received a variable. -/
def restricoesPedidos (P : Preparado) : List Restricao :=
  if P.atender && !P.pedidos.isEmpty then
    P.pedidos.filterMap (fun p =>
      if (variaveisPedidos P).any (fun v => v.1 = p.item) then
        some (Restricao.pedidoLe p.item (limiteAtendimento P p))
      else none)
  else []

/-- The classes of the base, as in unique() of the classe column, in
first-occurrence order. -/
def classesDaBase (P : Preparado) : List String :=
  dedupKeys id (P.base.map (fun r => r.classe))

/-- RESTRICAO 2: per class with positive available production, the sum of
its allocation variables is bounded by that production. -/
def restricoesClasse (P : Preparado) : List Restricao :=
  (classesDaBase P).filterMap (fun c =>
    if 0 < P.dispo c then some (Restricao.classeLe c (P.dispo c)) else none)

/-- RESTRICAO 3: when historical-demand capping is enabled and the ceiling
table is non-empty, each base row with a variable whose SKU has a ceiling
gets `x <= demanda_max`. -/
def restricoesDemanda (P : Preparado) : List Restricao :=
  if P.considerarDemanda && !P.demanda.isEmpty then
    P.base.filterMap (fun r =>
      if (variaveisAloc P).any (fun v => v.1 = r.item_id) then
        match P.demanda.find? (fun d => d.item = r.item) with
        | some d => some (Restricao.demandaLe r.item_id d.demanda_max)
        | none => none
      else none)
  else []

/-- All constraints of the model (RESTRICAO 4 is disabled in the source:
the enclosing `if False:` never adds it). -/
def restricoes (P : Preparado) : List Restricao :=
  restricoesPedidos P ++ restricoesClasse P ++ restricoesDemanda P

/-- A valuation of the decision variables: `y` for order variables (per
SKU), `x` for allocation variables (per item_id). -/
structure Atribuicao where
  y : Nat → ℚ
  x : Nat × String → ℚ

/-- The class sum the code builds for RESTRICAO 2: over the distinct
item_ids of the class that received a variable. -/
def somaClasse (P : Preparado) (σ : Atribuicao) (c : String) : ℚ :=
  (((dedupKeys id ((P.base.filter (fun r => r.classe = c)).map (fun r => r.item_id))).filter
    (fun i => (variaveisAloc P).any (fun v => v.1 = i))).map σ.x).sum

/-- Satisfaction of one constraint by a valuation. -/
def satisfaz (P : Preparado) (σ : Atribuicao) : Restricao → Prop
  | .pedidoLe s b => σ.y s ≤ b
  | .classeLe c b => somaClasse P σ c ≤ b
  | .demandaLe i b => σ.x i ≤ b

instance (P : Preparado) (σ : Atribuicao) (r : Restricao) : Decidable (satisfaz P σ r) := by
  cases r with
  | pedidoLe s b => exact inferInstanceAs (Decidable (σ.y s ≤ b))
  | classeLe c b => exact inferInstanceAs (Decidable (somaClasse P σ c ≤ b))
  | demandaLe i b => exact inferInstanceAs (Decidable (σ.x i ≤ b))

/-- Feasibility: every created variable is within its bounds and every
constraint added to the solver holds. -/
def Viavel (P : Preparado) (σ : Atribuicao) : Prop :=
  (∀ v ∈ variaveisPedidos P, 0 ≤ σ.y v.1 ∧ σ.y v.1 ≤ v.2) ∧
  (∀ v ∈ variaveisAloc P, 0 ≤ σ.x v.1 ∧ σ.x v.1 ≤ v.2) ∧
  (∀ r ∈ restricoes P, satisfaz P σ r)

/-- Unit cost attached to a SKU's order variable: the first base row of
that SKU (0 when absent). -/
def custoSku (P : Preparado) (s : Nat) : ℚ :=
  ((P.base.find? (fun r => r.item = s)).map (fun r => r.custo_ytd)).getD 0

/-- Unit margin attached to a SKU's order variable. -/
def margemSku (P : Preparado) (s : Nat) : ℚ :=
  ((P.base.find? (fun r => r.item = s)).map (fun r => r.margem_unitaria)).getD 0

/-- Order part of the objective: margin (or cost) of the SKU times its
order variable, over order rows whose SKU has a variable. -/
def objetivoPedidos (P : Preparado) (σ : Atribuicao) : ℚ :=
  if P.atender && !P.pedidos.isEmpty then
    ((P.pedidos.filter (fun p => (variaveisPedidos P).any (fun v => v.1 = p.item))).map
      (fun p => (if P.minimizarCustos then custoSku P p.item else margemSku P p.item) *
        σ.y p.item)).sum
  else 0

/-- Base rows whose item_id received an allocation variable. -/
def linhasComVar (P : Preparado) : List BaseRow :=
  P.base.filter (fun r => (variaveisAloc P).any (fun v => v.1 = r.item_id))

/-- Margin part of the surplus objective. -/
def margemTotalAloc (P : Preparado) (σ : Atribuicao) : ℚ :=
  ((linhasComVar P).map (fun r => r.margem_unitaria * σ.x r.item_id)).sum

/-- Cost part of the surplus objective. -/
def custoTotalAloc (P : Preparado) (σ : Atribuicao) : ℚ :=
  ((linhasComVar P).map (fun r => r.custo_ytd * σ.x r.item_id)).sum

/-- Total allocated quantity over the surplus variables. -/
def quantidadeTotalAloc (P : Preparado) (σ : Atribuicao) : ℚ :=
  ((linhasComVar P).map (fun r => σ.x r.item_id)).sum

/-- The anti-degenerate reward per allocated unit in cost minimisation. -/
def pesoRecompensa : ℚ := -200

/-- The objective expression handed to the solver. -/
def objetivo (P : Preparado) (σ : Atribuicao) : ℚ :=
  if P.minimizarCustos then
    objetivoPedidos P σ + (custoTotalAloc P σ + pesoRecompensa * quantidadeTotalAloc P σ)
  else
    objetivoPedidos P σ + margemTotalAloc P σ

/-- Optimisation direction. -/
inductive Sentido where
  | maximizar
  | minimizar
deriving DecidableEq

/-- Direction Maximize for margin maximisation, Minimize otherwise. -/
def sentidoObjetivo (P : Preparado) : Sentido :=
  if P.minimizarCustos then Sentido.minimizar else Sentido.maximizar

/-! ## Solving and result extraction (`resolver`, `_extrair_resultado`) -/

/-- Terminal statuses of the OR-tools linear solver. -/
inductive Status where
  | OPTIMAL
  | FEASIBLE
  | INFEASIBLE
  | UNBOUNDED
  | ABNORMAL
  | NOT_SOLVED
deriving DecidableEq

/-- One row of the decision table built by `_extrair_resultado`. -/
structure LinhaResultado where
  item_id : Option (Nat × String)
  item : Nat
  classe : String
  quantidade : ℚ
  tipo : String
  preco : ℚ
  custo_ytd : ℚ
  margem_unitaria : ℚ
deriving DecidableEq

/-- Tag of the surplus rows of the decision table. -/
def tipoAlocacao (P : Preparado) : String :=
  if P.atender then "EXCEDENTE"
  else if !P.usarEff then "ESTOQUE_TOTAL" else "EXCEDENTE"

/-- Read the solved values back: allocation variables above the 0.01 noise
floor become surplus rows, then order variables above the floor become
PEDIDO rows; each row is enriched from the base table. -/
def extrair (P : Preparado) (σ : Atribuicao) : List LinhaResultado :=
  ((variaveisAloc P).filterMap (fun v =>
    if (1 : ℚ)/100 < σ.x v.1 then
      (P.base.find? (fun r => r.item_id = v.1)).map (fun r =>
        { item_id := some v.1, item := r.item, classe := r.classe,
          quantidade := σ.x v.1, tipo := tipoAlocacao P, preco := r.preco,
          custo_ytd := r.custo_ytd, margem_unitaria := r.margem_unitaria })
    else none)) ++
  (if !P.pedidos.isEmpty then
    P.pedidos.filterMap (fun p =>
      if (variaveisPedidos P).any (fun v => v.1 = p.item) then
        if (1 : ℚ)/100 < σ.y p.item then
          (P.base.find? (fun r => r.item = p.item)).map (fun r =>
            { item_id := none, item := p.item, classe := r.classe,
              quantidade := σ.y p.item, tipo := "PEDIDO", preco := r.preco,
              custo_ytd := r.custo_ytd, margem_unitaria := r.margem_unitaria })
        else none
      else none)
  else [])

/-- Outcome of `resolver` as observable behaviour: its return value,
whether an ERROR line was logged, whether the feasible-but-not-optimal
warning was logged, and the decision table it produced (if any). -/
structure SaidaResolver where
  sucesso : Bool
  erroLogado : Bool
  avisoViavel : Bool
  resultado : Option (List LinhaResultado)
deriving DecidableEq

/-- Behaviour of `resolver`: extraction happens exactly on OPTIMAL (quietly) and
FEASIBLE (with a warning); every other status logs an error and returns
failure with no result. -/
def resolver (P : Preparado) (status : Status) (σ : Atribuicao) : SaidaResolver :=
  match status with
  | .OPTIMAL =>
    { sucesso := true, erroLogado := false, avisoViavel := false,
      resultado := some (extrair P σ) }
  | .FEASIBLE =>
    { sucesso := true, erroLogado := false, avisoViavel := true,
      resultado := some (extrair P σ) }
  | _ =>
    { sucesso := false, erroLogado := true, avisoViavel := false, resultado := none }

/-- Function `main` saves the comparison and the result files only when `resolver`
returned success. -/
def salvaResultados (P : Preparado) (status : Status) (σ : Atribuicao) : Bool :=
  (resolver P status σ).sucesso

/-- Total allocated quantity of a class in a decision table (orders plus
surplus rows). -/
def totalAlocadoClasse (resultado : List LinhaResultado) (c : String) : ℚ :=
  ((resultado.filter (fun d => d.classe = c)).map (fun d => d.quantidade)).sum

/-! ## Inversion lemmas for the pipeline -/

/-- A row of the reconciled base comes from a cost row, with its class
resolved, its class having production, its price resolved and its margin,
price and cost positive. -/
theorem mem_prepararBase {producao : List ProducaoRow} {classes : List ClassRow}
    {precos : List PriceRow} {custos : List CostRow} {pedidos : List PedidoSku}
    {r : BaseRow} (h : r ∈ prepararBase producao classes precos custos pedidos) :
    ∃ c ∈ custos, ∃ m : ClassRow,
      classes.find? (fun q => q.item = c.item) = some m ∧
      producao.any (fun pr => pr.classe = m.classe) = true ∧
      ∃ p : ℚ, resolvePreco precos custos c = some p ∧
        (0 < p - c.custo_ytd ∧ 0 < p ∧ 0 < c.custo_ytd) ∧
        r = { item_id := (c.item, c.embalagem), item := c.item, embalagem := c.embalagem,
              custo_ytd := c.custo_ytd, classe := m.classe, preco := p,
              margem_unitaria := p - c.custo_ytd,
              producao_total := producaoTotalClasse producao m.classe,
              qtd_pedida := qtdPedidaSku pedidos c.item } := by
  rw [prepararBase, List.mem_filterMap] at h
  obtain ⟨c, hc, hf⟩ := h
  refine ⟨c, hc, ?_⟩
  split at hf
  · exact absurd hf (by simp)
  · rename_i m hm
    split at hf
    · rename_i hpr
      split at hf
      · exact absurd hf (by simp)
      · rename_i p hp
        split at hf
        · rename_i hpos
          refine ⟨m, hm, by simpa using hpr, p, hp, hpos, ?_⟩
          exact (Option.some.injEq _ _).mp hf |>.symm
        · exact absurd hf (by simp)
    · exact absurd hf (by simp)

/-- Every base row's item_id is the pair (SKU code, package). -/
theorem item_id_estrutura {producao : List ProducaoRow} {classes : List ClassRow}
    {precos : List PriceRow} {custos : List CostRow} {pedidos : List PedidoSku}
    {r : BaseRow} (h : r ∈ prepararBase producao classes precos custos pedidos) :
    r.item_id = (r.item, r.embalagem) := by
  obtain ⟨c, _, m, _, _, p, _, _, hr⟩ := mem_prepararBase h
  subst hr; rfl

/-- Inversion of order-variable membership. -/
theorem mem_variaveisPedidos {P : Preparado} {v : Nat × ℚ}
    (h : v ∈ variaveisPedidos P) :
    P.atender = true ∧
    ∃ p ∈ P.pedidos, 0 < limiteAtendimento P p ∧ v = (p.item, limiteAtendimento P p) := by
  rw [variaveisPedidos] at h
  split at h
  · rename_i hg
    rw [List.mem_map] at h
    obtain ⟨p, hp, hv⟩ := h
    rw [List.mem_filter] at hp
    refine ⟨by simpa using (Bool.and_eq_true _ _ |>.mp hg).1, p, hp.1, by simpa using hp.2, hv.symm⟩
  · exact absurd h (by simp)

/-- Inversion of allocation-variable membership. -/
theorem mem_variaveisAloc {P : Preparado} {v : (Nat × String) × ℚ}
    (h : v ∈ variaveisAloc P) :
    ∃ r ∈ P.base, 0 < P.dispo r.classe ∧ v = (r.item_id, P.dispo r.classe) := by
  rw [variaveisAloc, List.mem_map] at h
  obtain ⟨r, hr, hv⟩ := h
  rw [List.mem_filter] at hr
  exact ⟨r, hr.1, by simpa using hr.2, hv.symm⟩

/-- Inversion of RESTRICAO-1 membership. -/
theorem mem_restricoesPedidos {P : Preparado} {r : Restricao}
    (h : r ∈ restricoesPedidos P) :
    ∃ p ∈ P.pedidos, (variaveisPedidos P).any (fun v => v.1 = p.item) = true ∧
      r = Restricao.pedidoLe p.item (limiteAtendimento P p) := by
  rw [restricoesPedidos] at h
  split at h
  · rw [List.mem_filterMap] at h
    obtain ⟨p, hp, hf⟩ := h
    split at hf
    · rename_i hv
      exact ⟨p, hp, hv, ((Option.some.injEq _ _).mp hf).symm⟩
    · exact absurd hf (by simp)
  · exact absurd h (by simp)

/-- Inversion of RESTRICAO-2 membership. -/
theorem mem_restricoesClasse {P : Preparado} {r : Restricao}
    (h : r ∈ restricoesClasse P) :
    ∃ c ∈ classesDaBase P, 0 < P.dispo c ∧ r = Restricao.classeLe c (P.dispo c) := by
  rw [restricoesClasse, List.mem_filterMap] at h
  obtain ⟨c, hc, hf⟩ := h
  split at hf
  · rename_i hd
    exact ⟨c, hc, hd, ((Option.some.injEq _ _).mp hf).symm⟩
  · exact absurd hf (by simp)

/-- Inversion of RESTRICAO-3 membership. -/
theorem mem_restricoesDemanda {P : Preparado} {r : Restricao}
    (h : r ∈ restricoesDemanda P) :
    ∃ b ∈ P.base, (variaveisAloc P).any (fun v => v.1 = b.item_id) = true ∧
      ∃ d : DemandaRow, P.demanda.find? (fun q => q.item = b.item) = some d ∧
        r = Restricao.demandaLe b.item_id d.demanda_max := by
  rw [restricoesDemanda] at h
  split at h
  · rw [List.mem_filterMap] at h
    obtain ⟨b, hb, hf⟩ := h
    split at hf
    · rename_i hv
      split at hf
      · rename_i d hd
        exact ⟨b, hb, hv, d, hd, ((Option.some.injEq _ _).mp hf).symm⟩
      · exact absurd hf (by simp)
    · exact absurd hf (by simp)
  · exact absurd h (by simp)

/-- Inversion of decision-table membership: a row is either a surplus row
read from an allocation variable above the noise floor, or a PEDIDO row
read from an order variable above the noise floor. -/
theorem mem_extrair {P : Preparado} {σ : Atribuicao} {ln : LinhaResultado}
    (h : ln ∈ extrair P σ) :
    (∃ v ∈ variaveisAloc P, ∃ r : BaseRow,
        P.base.find? (fun b => b.item_id = v.1) = some r ∧
        (1 : ℚ)/100 < σ.x v.1 ∧
        ln = { item_id := some v.1, item := r.item, classe := r.classe,
               quantidade := σ.x v.1, tipo := tipoAlocacao P, preco := r.preco,
               custo_ytd := r.custo_ytd, margem_unitaria := r.margem_unitaria }) ∨
    (∃ p ∈ P.pedidos, (variaveisPedidos P).any (fun v => v.1 = p.item) = true ∧
        (1 : ℚ)/100 < σ.y p.item ∧
        ∃ r : BaseRow, P.base.find? (fun b => b.item = p.item) = some r ∧
        ln = { item_id := none, item := p.item, classe := r.classe,
               quantidade := σ.y p.item, tipo := "PEDIDO", preco := r.preco,
               custo_ytd := r.custo_ytd, margem_unitaria := r.margem_unitaria }) := by
  rw [extrair, List.mem_append] at h
  rcases h with h | h
  · left
    rw [List.mem_filterMap] at h
    obtain ⟨v, hv, hf⟩ := h
    split at hf
    · rename_i hq
      rw [Option.map_eq_some'] at hf
      obtain ⟨r, hr, hln⟩ := hf
      exact ⟨v, hv, r, hr, hq, hln.symm⟩
    · exact absurd hf (by simp)
  · right
    split at h
    · rw [List.mem_filterMap] at h
      obtain ⟨p, hp, hf⟩ := h
      split at hf
      · rename_i hv
        split at hf
        · rename_i hq
          rw [Option.map_eq_some'] at hf
          obtain ⟨r, hr, hln⟩ := hf
          exact ⟨p, hp, hv, hq, r, hr, hln.symm⟩
        · exact absurd hf (by simp)
      · exact absurd hf (by simp)
    · exact absurd h (by simp)

/-- The surplus tag is never the PEDIDO tag. -/
theorem tipoAlocacao_ne_pedido (P : Preparado) : tipoAlocacao P ≠ "PEDIDO" := by
  rw [tipoAlocacao]
  split
  · simp
  · split <;> simp

/-- In a list whose keys are distinct, a predicate that only holds at
elements sharing `p`'s key, and holds at the member `p`, filters to
exactly `[p]`. -/
theorem filter_chave_unica {l : List PedidoSku}
    (hnd : (l.map (fun q => q.item)).Nodup) (p : PedidoSku) (hp : p ∈ l)
    (pred : PedidoSku → Bool) (hpred : pred p = true)
    (himp : ∀ q ∈ l, pred q = true → q.item = p.item) :
    l.filter pred = [p] := by
  induction l with
  | nil => cases hp
  | cons a t ih =>
    rw [List.map_cons, List.nodup_cons] at hnd
    rcases List.mem_cons.mp hp with rfl | hpt
    · rw [List.filter_cons_of_pos hpred]
      have ht : t.filter pred = [] := by
        rw [List.filter_eq_nil_iff]
        intro q hq hqp
        exact hnd.1 ((himp q (List.mem_cons_of_mem _ hq) hqp) ▸ List.mem_map_of_mem _ hq)
      rw [ht]
    · have ha : ¬ pred a = true := by
        intro ha
        exact hnd.1 ((himp a (List.mem_cons_self _ _) ha) ▸ List.mem_map_of_mem _ hpt)
      rw [List.filter_cons_of_neg ha]
      exact ih hnd.2 hpt (fun q hq => himp q (List.mem_cons_of_mem _ hq))

/-! ## Concrete exemplar runs -/

/-- Default policy: fulfil orders, surplus-only, no demand capping,
margin maximisation. -/
def cfgPadrao : Config :=
  { atender_pedidos := true, usar_apenas_excedente := true,
    considerar_demanda_historica := false, tipo_objetivo := "maximizar_margem" }

/-- One class A with production 1000; SKUs 1 (margin 2, no orders) and 2
(margin 1, aggregated order 600), one package each. -/
def entradas1 : Entradas :=
  { producaoArquivo := [("A", 1000)]
    classes := [{ item := 1, classe := "A" }, { item := 2, classe := "A" }]
    custosArquivo := [{ item := 1, embalagem := "CX 1", custo_ytd := 10 },
                      { item := 2, embalagem := "CX 1", custo_ytd := 10 }]
    precosArquivo := some [{ item_id := (1, "CX 1"), preco := 12 },
                           { item_id := (2, "CX 1"), preco := 11 }]
    pedidosArquivo := some [{ item := 2, quantidade_pedida := 600 }]
    demanda := [] }

def P1 : Preparado := prepararDados cfgPadrao entradas1

/-- Reconciled base row of SKU 1 in `P1`. -/
def linha1 : BaseRow :=
  { item_id := (1, "CX 1"), item := 1, embalagem := "CX 1", custo_ytd := 10,
    classe := "A", preco := 12, margem_unitaria := 2, producao_total := 1000,
    qtd_pedida := 0 }

/-- Reconciled base row of SKU 2 in `P1`. -/
def linha2 : BaseRow :=
  { item_id := (2, "CX 1"), item := 2, embalagem := "CX 1", custo_ytd := 10,
    classe := "A", preco := 11, margem_unitaria := 1, producao_total := 1000,
    qtd_pedida := 600 }

/-- The margin-maximal point of `P1`: order variable of SKU 2 at its bound
600, allocation of item (1, CX 1) at the full class pool 1000. -/
def sigma1 : Atribuicao :=
  { y := fun s => if s = 2 then 600 else 0
    x := fun i => if i = (1, "CX 1") then 1000 else 0 }

theorem P1_base_eval : P1.base = [linha1, linha2] := by
  norm_num [P1, prepararDados, prepararBase, carregarProducao, carregarPrecos,
    carregarPedidos, carregarCustos, sumByKey, dedupKeys, dedupKeysAux,
    entradas1, cfgPadrao, resolvePreco, lookupPreco, precosDoSku, listMean,
    producaoTotalClasse, qtdPedidaSku, linha1, linha2, List.filterMap_cons,
    List.find?]

theorem P1_pedidos_eval : P1.pedidos = [{ item := 2, qtd := 600 }] := by
  norm_num [P1, prepararDados, carregarPedidos, sumByKey, dedupKeys,
    dedupKeysAux, entradas1, cfgPadrao, List.find?]

theorem P1_producao_eval : P1.producao = [{ classe := "A", producao_total := 1000 }] := by
  norm_num [P1, prepararDados, carregarProducao, sumByKey, dedupKeys,
    dedupKeysAux, entradas1, cfgPadrao]

theorem P1_atender_eval : P1.atender = true := rfl

theorem P1_usarEff_eval : P1.usarEff = true := rfl

theorem P1_minimiza_eval : P1.minimizarCustos = false := by
  simp [P1, prepararDados, cfgPadrao]

theorem P1_demanda_eval : P1.demanda = [] := rfl

theorem P1_considerar_eval : P1.considerarDemanda = false := rfl

theorem P1_pedidosPorClasse_eval : pedidosPorClasse P1.pedidos P1.base "A" = 0 := by
  rw [P1_base_eval, P1_pedidos_eval]
  norm_num [pedidosPorClasse, List.find?, linha1]

theorem P1_dispo_eval : P1.dispo "A" = 1000 := by
  rw [Preparado.dispo, excedenteClasse]
  rw [P1_atender_eval, P1_usarEff_eval, P1_pedidosPorClasse_eval, P1_producao_eval]
  norm_num [producaoTotalClasse, List.find?]

theorem P1_vars_pedidos_eval : variaveisPedidos P1 = [(2, 600)] := by
  rw [variaveisPedidos, P1_atender_eval]
  rw [P1_pedidos_eval]
  norm_num [limiteAtendimento, List.find?, P1_base_eval, linha1, linha2, P1_dispo_eval]

theorem P1_vars_aloc_eval :
    variaveisAloc P1 = [((1, "CX 1"), 1000), ((2, "CX 1"), 1000)] := by
  rw [variaveisAloc, P1_base_eval]
  norm_num [linha1, linha2, P1_dispo_eval]

theorem P1_restricoes_eval :
    restricoes P1 = [Restricao.pedidoLe 2 600, Restricao.classeLe "A" 1000] := by
  rw [restricoes, restricoesPedidos, restricoesClasse, restricoesDemanda]
  rw [P1_atender_eval, P1_pedidos_eval, P1_demanda_eval]
  norm_num [classesDaBase, P1_base_eval, linha1, linha2, dedupKeys, dedupKeysAux,
    List.filterMap_cons, P1_vars_pedidos_eval, P1_dispo_eval, limiteAtendimento,
    List.find?, P1_considerar_eval]

theorem P1_extrair_eval :
    extrair P1 sigma1 =
      [{ item_id := some (1, "CX 1"), item := 1, classe := "A", quantidade := 1000,
         tipo := "EXCEDENTE", preco := 12, custo_ytd := 10, margem_unitaria := 2 },
       { item_id := none, item := 2, classe := "A", quantidade := 600,
         tipo := "PEDIDO", preco := 11, custo_ytd := 10, margem_unitaria := 1 }] := by
  rw [extrair, P1_vars_aloc_eval, P1_vars_pedidos_eval, P1_pedidos_eval]
  norm_num [sigma1, P1_base_eval, linha1, linha2, List.filterMap_cons, List.find?,
    tipoAlocacao, P1_atender_eval]

/-- One class B with production 500; its only SKU 3 orders 600, so the
class's available-for-optimization production is 0. -/
def entradas4 : Entradas :=
  { producaoArquivo := [("B", 500)]
    classes := [{ item := 3, classe := "B" }]
    custosArquivo := [{ item := 3, embalagem := "CX 1", custo_ytd := 10 }]
    precosArquivo := some [{ item_id := (3, "CX 1"), preco := 12 }]
    pedidosArquivo := some [{ item := 3, quantidade_pedida := 600 }]
    demanda := [] }

def P4 : Preparado := prepararDados cfgPadrao entradas4

/-- Reconciled base row of SKU 3 in `P4`. -/
def linha4 : BaseRow :=
  { item_id := (3, "CX 1"), item := 3, embalagem := "CX 1", custo_ytd := 10,
    classe := "B", preco := 12, margem_unitaria := 2, producao_total := 500,
    qtd_pedida := 600 }

theorem P4_base_eval : P4.base = [linha4] := by
  norm_num [P4, prepararDados, prepararBase, carregarProducao, carregarPrecos,
    carregarPedidos, carregarCustos, sumByKey, dedupKeys, dedupKeysAux,
    entradas4, cfgPadrao, resolvePreco, lookupPreco, precosDoSku, listMean,
    producaoTotalClasse, qtdPedidaSku, linha4, List.filterMap_cons, List.find?]

theorem P4_pedidos_eval : P4.pedidos = [{ item := 3, qtd := 600 }] := by
  norm_num [P4, prepararDados, carregarPedidos, sumByKey, dedupKeys,
    dedupKeysAux, entradas4, cfgPadrao, List.find?]

theorem P4_atender_eval : P4.atender = true := rfl

theorem P4_dispo_eval : P4.dispo "B" = 0 := by
  rw [Preparado.dispo, excedenteClasse, P4_atender_eval]
  rw [P4_pedidos_eval, P4_base_eval]
  norm_num [pedidosPorClasse, producaoTotalClasse, List.find?, linha4, P4,
    prepararDados, carregarProducao, sumByKey, dedupKeys, dedupKeysAux,
    entradas4]

theorem P4_vars_pedidos_eval : variaveisPedidos P4 = [] := by
  rw [variaveisPedidos, P4_atender_eval, P4_pedidos_eval]
  norm_num [limiteAtendimento, List.find?, P4_base_eval, linha4, P4_dispo_eval]

theorem P4_vars_aloc_eval : variaveisAloc P4 = [] := by
  rw [variaveisAloc, P4_base_eval]
  norm_num [linha4, P4_dispo_eval]

theorem P4_restricoes_eval : restricoes P4 = [] := by
  rw [restricoes, restricoesPedidos, restricoesClasse, restricoesDemanda]
  rw [P4_atender_eval, P4_pedidos_eval]
  norm_num [classesDaBase, P4_base_eval, linha4, dedupKeys, dedupKeysAux,
    List.filterMap_cons, P4_vars_pedidos_eval, P4_dispo_eval, limiteAtendimento,
    List.find?]

/-- The inputs of `entradas1` with both the price file and the orders file
absent. -/
def entradas5 : Entradas :=
  { entradas1 with precosArquivo := none, pedidosArquivo := none }

def P5 : Preparado := prepararDados cfgPadrao entradas5

/-- Policy with historical-demand capping enabled. -/
def cfgDemanda : Config :=
  { atender_pedidos := true, usar_apenas_excedente := true,
    considerar_demanda_historica := true, tipo_objetivo := "maximizar_margem" }

/-- The inputs of `entradas1` with a historical-demand ceiling of 50 for
SKU 1 (SKU 2 has no historical data). -/
def entradas8 : Entradas :=
  { entradas1 with demanda := [{ item := 1, demanda_max := 50 }] }

def P8 : Preparado := prepararDados cfgDemanda entradas8

/-- The all-zero valuation. -/
def sigmaZero : Atribuicao := { y := fun _ => 0, x := fun _ => 0 }

theorem P8_base_eval : P8.base = [linha1, linha2] := by
  norm_num [P8, prepararDados, prepararBase, carregarProducao, carregarPrecos,
    carregarPedidos, carregarCustos, sumByKey, dedupKeys, dedupKeysAux,
    entradas8, entradas1, cfgDemanda, resolvePreco, lookupPreco, precosDoSku,
    listMean, producaoTotalClasse, qtdPedidaSku, linha1, linha2,
    List.filterMap_cons, List.find?]

theorem P8_pedidos_eval : P8.pedidos = [{ item := 2, qtd := 600 }] := by
  norm_num [P8, prepararDados, carregarPedidos, sumByKey, dedupKeys,
    dedupKeysAux, entradas8, entradas1, cfgDemanda, List.find?]

theorem P8_atender_eval : P8.atender = true := rfl

theorem P8_usarEff_eval : P8.usarEff = true := rfl

theorem P8_demanda_eval : P8.demanda = [{ item := 1, demanda_max := 50 }] := rfl

theorem P8_considerar_eval : P8.considerarDemanda = true := rfl

theorem P8_dispo_eval : P8.dispo "A" = 1000 := by
  rw [Preparado.dispo, excedenteClasse, P8_atender_eval, P8_usarEff_eval]
  rw [P8_pedidos_eval, P8_base_eval]
  norm_num [pedidosPorClasse, producaoTotalClasse, List.find?, linha1, P8,
    prepararDados, carregarProducao, sumByKey, dedupKeys, dedupKeysAux,
    entradas8, entradas1]

theorem P8_vars_pedidos_eval : variaveisPedidos P8 = [(2, 600)] := by
  rw [variaveisPedidos, P8_atender_eval, P8_pedidos_eval]
  norm_num [limiteAtendimento, List.find?, P8_base_eval, linha1, linha2, P8_dispo_eval]

theorem P8_vars_aloc_eval :
    variaveisAloc P8 = [((1, "CX 1"), 1000), ((2, "CX 1"), 1000)] := by
  rw [variaveisAloc, P8_base_eval]
  norm_num [linha1, linha2, P8_dispo_eval]

theorem P8_restricoes_eval :
    restricoes P8 = [Restricao.pedidoLe 2 600, Restricao.classeLe "A" 1000,
      Restricao.demandaLe (1, "CX 1") 50] := by
  rw [restricoes, restricoesPedidos, restricoesClasse, restricoesDemanda]
  rw [P8_atender_eval, P8_pedidos_eval, P8_demanda_eval, P8_considerar_eval]
  norm_num [classesDaBase, P8_base_eval, linha1, linha2, dedupKeys, dedupKeysAux,
    List.filterMap_cons, P8_vars_pedidos_eval, P8_vars_aloc_eval, P8_dispo_eval,
    limiteAtendimento, List.find?]

/-- Policy selecting cost minimisation. -/
def cfgCustos : Config :=
  { atender_pedidos := true, usar_apenas_excedente := true,
    considerar_demanda_historica := false, tipo_objetivo := "minimizar_custos" }

def P9 : Preparado := prepararDados cfgCustos entradas1

theorem P9_minimiza_eval : P9.minimizarCustos = true := by
  simp [P9, prepararDados, cfgCustos]

/-! ## Claim theorems -/

/-- C1: the capacity invariant fails on the code.  In `P1` the class's
order total is taken from the class's FIRST base row (whose SKU has no
orders), so the surplus pool stays at the full production 1000 while the
order variable of SKU 2 is bounded by 600; the point `sigma1` satisfies
every bound and constraint of the model, yet the decision table it
extracts allocates 1600 units of class A against a production of 1000.
The intended per-class order sum is 600 (conjunct on `qtdPedidaSku`),
but `pedidosPorClasse` returns 0. -/
theorem capacidade_classe_violada :
    Viavel P1 sigma1 ∧
    totalAlocadoClasse (extrair P1 sigma1) "A" = 1600 ∧
    producaoTotalClasse P1.producao "A" = 1000 ∧
    pedidosPorClasse P1.pedidos P1.base "A" = 0 ∧
    qtdPedidaSku P1.pedidos 2 = 600 := by
  refine ⟨⟨?_, ?_, ?_⟩, ?_, ?_, P1_pedidosPorClasse_eval, ?_⟩
  · rw [P1_vars_pedidos_eval]; norm_num [sigma1]
  · rw [P1_vars_aloc_eval]; norm_num [sigma1]
  · rw [P1_restricoes_eval]
    intro r hr
    simp only [List.mem_cons, List.not_mem_nil, or_false] at hr
    rcases hr with rfl | rfl
    · norm_num [satisfaz, sigma1]
    · rw [satisfaz]
      rw [somaClasse, P1_base_eval, P1_vars_aloc_eval]
      norm_num [dedupKeys, dedupKeysAux, linha1, linha2, sigma1]
  · rw [P1_extrair_eval]; norm_num [totalAlocadoClasse]
  · rw [P1_producao_eval]; norm_num [producaoTotalClasse, List.find?]
  · rw [P1_pedidos_eval]; norm_num [qtdPedidaSku, List.find?]

/-- Under margin maximisation, `sigma1` is moreover an optimum of the
model built from `entradas1`: every feasible point has objective at most
`sigma1`'s, so a solver report of OPTIMAL extracts an over-allocating
table. -/
theorem sigma1_otima (σ : Atribuicao) (h : Viavel P1 σ) :
    objetivo P1 σ ≤ objetivo P1 sigma1 := by
  obtain ⟨hy, hx, hr⟩ := h
  have h1 := hy (2, 600) (by rw [P1_vars_pedidos_eval]; simp)
  have h2 := hx ((1, "CX 1"), 1000) (by rw [P1_vars_aloc_eval]; simp)
  have h3 := hx ((2, "CX 1"), 1000) (by rw [P1_vars_aloc_eval]; simp)
  have h4 := hr (Restricao.classeLe "A" 1000) (by rw [P1_restricoes_eval]; simp)
  rw [satisfaz] at h4
  have hs : somaClasse P1 σ "A" = σ.x (1, "CX 1") + σ.x (2, "CX 1") := by
    rw [somaClasse, P1_base_eval, P1_vars_aloc_eval]
    norm_num [dedupKeys, dedupKeysAux, linha1, linha2]
  rw [hs] at h4
  have ho : ∀ τ : Atribuicao,
      objetivo P1 τ = 1 * τ.y 2 + (2 * τ.x (1, "CX 1") + 1 * τ.x (2, "CX 1")) := by
    intro τ
    rw [objetivo, objetivoPedidos]
    rw [P1_minimiza_eval, P1_atender_eval, P1_pedidos_eval, P1_vars_pedidos_eval]
    rw [margemTotalAloc, linhasComVar, P1_base_eval, P1_vars_aloc_eval]
    norm_num [linha1, linha2, margemSku, List.find?, P1_base_eval]
  rw [ho σ, ho sigma1]
  norm_num [sigma1] at h1 h2 h3 ⊢
  linarith [h1.1, h1.2, h2.1, h2.2, h3.1, h3.2, h4]

/-- C2: the effective surplus-only flag is forced to true whenever
orders are fulfilled, regardless of its configured value; with orders
not fulfilled and surplus-only configured true, the effective flag is
forced to false and the auto-correction warning is logged. -/
theorem politica_flags_autocorrecao (cfg : Config) (e : Entradas) :
    (cfg.atender_pedidos = true → (prepararDados cfg e).usarEff = true) ∧
    (cfg.atender_pedidos = false → cfg.usar_apenas_excedente = true →
      (prepararDados cfg e).usarEff = false ∧ (prepararDados cfg e).avisoFlags = true) := by
  constructor
  · intro h; simp [prepararDados, ajustarFlags, h]
  · intro h1 h2; simp [prepararDados, ajustarFlags, h1, h2]

theorem politica_flags_testemunha :
    (prepararDados cfgPadrao entradas1).usarEff = true ∧
    (prepararDados
      { atender_pedidos := false, usar_apenas_excedente := true,
        considerar_demanda_historica := false,
        tipo_objetivo := "maximizar_margem" } entradas1).usarEff = false ∧
    (prepararDados
      { atender_pedidos := false, usar_apenas_excedente := true,
        considerar_demanda_historica := false,
        tipo_objetivo := "maximizar_margem" } entradas1).avisoFlags = true := by
  refine ⟨(politica_flags_autocorrecao cfgPadrao entradas1).1 rfl, ?_, ?_⟩
  · exact ((politica_flags_autocorrecao _ entradas1).2 rfl rfl).1
  · exact ((politica_flags_autocorrecao _ entradas1).2 rfl rfl).2

/-- C3: on any solver status other than OPTIMAL and FEASIBLE, `resolver`
returns failure with an explicit logged error, produces no decision
table, and `main` saves nothing. -/
theorem falha_sinalizada (P : Preparado) (status : Status) (σ : Atribuicao)
    (h1 : status ≠ Status.OPTIMAL) (h2 : status ≠ Status.FEASIBLE) :
    (resolver P status σ).sucesso = false ∧
    (resolver P status σ).erroLogado = true ∧
    (resolver P status σ).resultado = none ∧
    salvaResultados P status σ = false := by
  cases status <;> simp_all [resolver, salvaResultados]

theorem falha_sinalizada_testemunha :
    (resolver P1 Status.INFEASIBLE sigma1).sucesso = false ∧
    (resolver P1 Status.INFEASIBLE sigma1).erroLogado = true ∧
    (resolver P1 Status.INFEASIBLE sigma1).resultado = none ∧
    salvaResultados P1 Status.INFEASIBLE sigma1 = false :=
  falha_sinalizada P1 Status.INFEASIBLE sigma1 (by simp) (by simp)

/-- C9: under cost minimisation the solver is asked to minimise
order costs plus surplus costs minus 200 per allocated surplus unit; the
anti-degenerate reward multiplies only the surplus variables, while each
order variable keeps its plain unit cost as coefficient. -/
theorem objetivo_minimizar_custos (P : Preparado) (σ : Atribuicao)
    (h : P.minimizarCustos = true) :
    sentidoObjetivo P = Sentido.minimizar ∧
    objetivo P σ = objetivoPedidos P σ
      + ((linhasComVar P).map (fun r => r.custo_ytd * σ.x r.item_id)).sum
      - 200 * ((linhasComVar P).map (fun r => σ.x r.item_id)).sum ∧
    objetivoPedidos P σ =
      (if P.atender && !P.pedidos.isEmpty then
        ((P.pedidos.filter (fun p => (variaveisPedidos P).any (fun v => v.1 = p.item))).map
          (fun p => custoSku P p.item * σ.y p.item)).sum
      else 0) := by
  refine ⟨?_, ?_, ?_⟩
  · simp [sentidoObjetivo, h]
  · rw [objetivo, h]
    rw [custoTotalAloc, quantidadeTotalAloc, pesoRecompensa]
    simp only [if_true]
    ring
  · rw [objetivoPedidos, h]
    simp

theorem objetivo_minimizar_custos_testemunha :
    sentidoObjetivo P9 = Sentido.minimizar ∧
    objetivo P9 sigma1 = objetivoPedidos P9 sigma1
      + ((linhasComVar P9).map (fun r => r.custo_ytd * sigma1.x r.item_id)).sum
      - 200 * ((linhasComVar P9).map (fun r => sigma1.x r.item_id)).sum := by
  have h := objetivo_minimizar_custos P9 sigma1 P9_minimiza_eval
  exact ⟨h.1, h.2.1⟩

/-- The mean `listMean` is `none` exactly on the empty list. -/
theorem listMean_eq_none {l : List ℚ} : listMean l = none ↔ l = [] := by
  rw [listMean]; split <;> simp_all

/-- C7: every surviving base row has positive unit margin, price and cost,
and consequently every row of the extracted decision table has positive
unit margin. -/
theorem margens_positivas (cfg : Config) (e : Entradas) :
    (∀ r ∈ (prepararDados cfg e).base,
      0 < r.margem_unitaria ∧ 0 < r.preco ∧ 0 < r.custo_ytd) ∧
    (∀ (σ : Atribuicao) (d : LinhaResultado),
      d ∈ extrair (prepararDados cfg e) σ → 0 < d.margem_unitaria) := by
  have hbase : ∀ r ∈ (prepararDados cfg e).base,
      0 < r.margem_unitaria ∧ 0 < r.preco ∧ 0 < r.custo_ytd := by
    intro r hr
    obtain ⟨c, _, m, _, _, p, _, hpos, heq⟩ := mem_prepararBase hr
    subst heq
    exact ⟨hpos.1, hpos.2.1, hpos.2.2⟩
  refine ⟨hbase, ?_⟩
  intro σ d hd
  rcases mem_extrair hd with ⟨v, _, r, hfind, _, heq⟩ | ⟨p, _, _, _, r, hfind, heq⟩
  · subst heq
    exact (hbase r (List.mem_of_find?_eq_some hfind)).1
  · subst heq
    exact (hbase r (List.mem_of_find?_eq_some hfind)).1

/-- The surplus row of `P1`'s decision table under `sigma1`. -/
def linhaExtraida1 : LinhaResultado :=
  { item_id := some (1, "CX 1"), item := 1, classe := "A", quantidade := 1000,
    tipo := "EXCEDENTE", preco := 12, custo_ytd := 10, margem_unitaria := 2 }

theorem margens_positivas_testemunha :
    0 < linha1.margem_unitaria ∧ 0 < linhaExtraida1.margem_unitaria := by
  have hm : linha1 ∈ P1.base := by rw [P1_base_eval]; simp
  have hd : linhaExtraida1 ∈ extrair P1 sigma1 := by
    rw [P1_extrair_eval]; simp [linhaExtraida1]
  exact ⟨((margens_positivas cfgPadrao entradas1).1 linha1 hm).1,
    (margens_positivas cfgPadrao entradas1).2 sigma1 linhaExtraida1 hd⟩

/-- C6: the price of every reconciled base row is resolved by the
three-tier fallback: the exact price of its item_id when present,
otherwise the mean over its SKU's priced packages, otherwise the global
mean of the price table. -/
theorem preco_tres_niveis (cfg : Config) (e : Entradas) (r : BaseRow)
    (hr : r ∈ (prepararDados cfg e).base) :
    (∀ q : ℚ, lookupPreco (carregarPrecos e.precosArquivo).2 r.item_id = some q →
      r.preco = q) ∧
    (lookupPreco (carregarPrecos e.precosArquivo).2 r.item_id = none →
      (precosDoSku (carregarPrecos e.precosArquivo).2 (carregarCustos e.custosArquivo)
          r.item ≠ [] →
        some r.preco = listMean (precosDoSku (carregarPrecos e.precosArquivo).2
          (carregarCustos e.custosArquivo) r.item)) ∧
      (precosDoSku (carregarPrecos e.precosArquivo).2 (carregarCustos e.custosArquivo)
          r.item = [] →
        some r.preco =
          listMean (((carregarPrecos e.precosArquivo).2).map (fun p => p.preco)))) := by
  obtain ⟨c, hc, m, hm, hpr, p, hp, hpos, heq⟩ := mem_prepararBase hr
  subst heq
  dsimp only
  rw [resolvePreco] at hp
  constructor
  · intro q hq
    rw [hq] at hp
    simpa using hp.symm
  · intro hnone
    rw [hnone] at hp
    constructor
    · intro hne
      cases hms : listMean (precosDoSku (carregarPrecos e.precosArquivo).2
          (carregarCustos e.custosArquivo) c.item) with
      | none => exact absurd (listMean_eq_none.mp hms) hne
      | some mq =>
        rw [hms] at hp
        simp only [Option.some.injEq] at hp
        exact congrArg some hp.symm
    · intro hnil
      have hms : listMean (precosDoSku (carregarPrecos e.precosArquivo).2
          (carregarCustos e.custosArquivo) c.item) = none := by
        rw [hnil]; rfl
      rw [hms] at hp
      exact hp.symm

theorem preco_tres_niveis_testemunha : linha1.preco = 12 := by
  have hm : linha1 ∈ P1.base := by rw [P1_base_eval]; simp
  have hl : lookupPreco (carregarPrecos entradas1.precosArquivo).2 linha1.item_id =
      some 12 := by
    norm_num [lookupPreco, carregarPrecos, entradas1, dedupKeys, dedupKeysAux,
      List.find?, linha1]
  exact (preco_tres_niveis cfgPadrao entradas1 linha1 hm).1 12 hl

/-- C4 counterexample: in `P4`, SKU 3 has a positive aggregated order
(600) and a surviving base row, orders are fulfilled, yet the model has no
order variable and no order constraint at all, because the class's
available-for-optimization production is 0 and the bound
min(600, 0) = 0 is not positive. -/
theorem variavel_pedido_contraexemplo :
    qtdPedidaSku P4.pedidos 3 = 600 ∧
    (P4.base.find? (fun b => b.item = 3)).isSome = true ∧
    P4.atender = true ∧
    P4.dispo "B" = 0 ∧
    variaveisPedidos P4 = [] ∧
    restricoes P4 = [] := by
  refine ⟨?_, ?_, P4_atender_eval, P4_dispo_eval, P4_vars_pedidos_eval,
    P4_restricoes_eval⟩
  · rw [P4_pedidos_eval]; norm_num [qtdPedidaSku, List.find?]
  · rw [P4_base_eval]; norm_num [List.find?, linha4]

/-- C4 amended: when orders are fulfilled, every aggregated order row `p`
whose SKU has a surviving base row and whose bound
min(ordered quantity, class available production) is positive yields
exactly one order variable, with exactly that bound, and the model
additionally carries the explicit constraint `y <= bound`. -/
theorem variavel_pedido_unica (P : Preparado) (p : PedidoSku) (r : BaseRow)
    (hA : P.atender = true)
    (hnd : (P.pedidos.map (fun q => q.item)).Nodup)
    (hp : p ∈ P.pedidos)
    (hr : P.base.find? (fun b => b.item = p.item) = some r)
    (hpos : 0 < min p.qtd (P.dispo r.classe)) :
    (variaveisPedidos P).filter (fun v => v.1 == p.item) =
      [(p.item, min p.qtd (P.dispo r.classe))] ∧
    Restricao.pedidoLe p.item (min p.qtd (P.dispo r.classe)) ∈ restricoes P := by
  have hlim : limiteAtendimento P p = min p.qtd (P.dispo r.classe) := by
    rw [limiteAtendimento, hr]
  have hne : P.pedidos ≠ [] := List.ne_nil_of_mem hp
  have hguard : (P.atender && !P.pedidos.isEmpty) = true := by
    rw [hA]
    cases hl : P.pedidos with
    | nil => exact absurd hl hne
    | cons a t => simp
  have hvmem : (p.item, limiteAtendimento P p) ∈ variaveisPedidos P := by
    rw [variaveisPedidos, if_pos hguard]
    refine List.mem_map_of_mem _ (List.mem_filter.mpr ⟨hp, ?_⟩)
    rw [hlim]
    exact decide_eq_true hpos
  constructor
  · rw [variaveisPedidos, if_pos hguard]
    rw [List.filter_map, List.filter_filter]
    have hfil := filter_chave_unica hnd p hp
      (fun a => ((fun v => v.1 == p.item) ∘ fun q2 => (q2.item, limiteAtendimento P q2)) a &&
        decide (0 < limiteAtendimento P a))
      (by simp [Function.comp, hlim, hpos])
      (by intro q hq hqp; simpa [Function.comp] using (Bool.and_eq_true _ _ |>.mp hqp).1)
    rw [hfil]
    simp [hlim]
  · rw [restricoes]
    apply List.mem_append_left
    apply List.mem_append_left
    rw [restricoesPedidos, if_pos hguard, List.mem_filterMap]
    refine ⟨p, hp, ?_⟩
    have hany : (variaveisPedidos P).any (fun v => v.1 = p.item) = true :=
      List.any_eq_true.mpr ⟨(p.item, limiteAtendimento P p), hvmem, by simp⟩
    rw [if_pos hany, hlim]

theorem variavel_pedido_testemunha :
    (variaveisPedidos P1).filter (fun v => v.1 == 2) = [(2, 600)] ∧
    Restricao.pedidoLe 2 600 ∈ restricoes P1 := by
  have hr : P1.base.find? (fun b => b.item = (⟨2, 600⟩ : PedidoSku).item) =
      some linha2 := by
    rw [P1_base_eval]; norm_num [List.find?, linha1, linha2]
  have hmin : min (⟨2, 600⟩ : PedidoSku).qtd (P1.dispo linha2.classe) = 600 := by
    rw [show linha2.classe = "A" from rfl, P1_dispo_eval]; norm_num
  have h := variavel_pedido_unica P1 ⟨2, 600⟩ linha2 P1_atender_eval
    (by rw [P1_pedidos_eval]; simp)
    (by rw [P1_pedidos_eval]; simp)
    hr
    (by rw [hmin]; norm_num)
  rw [hmin] at h
  exact h

/-- C10: with orders fulfilled, an aggregated order whose SKU has no
surviving base row, or whose class has no available-for-optimization
production, receives no order variable, no order constraint, and no
PEDIDO row in any extracted decision table; the pipeline produces all of
this totally, raising no error. -/
theorem pedido_ausente_sem_erro (cfg : Config) (e : Entradas) (p : PedidoSku)
    (hA : cfg.atender_pedidos = true)
    (hnd : ((prepararDados cfg e).pedidos.map (fun q => q.item)).Nodup)
    (hp : p ∈ (prepararDados cfg e).pedidos)
    (hq : 0 < p.qtd)
    (hcase : (prepararDados cfg e).base.find? (fun b => b.item = p.item) = none ∨
      ∃ r : BaseRow,
        (prepararDados cfg e).base.find? (fun b => b.item = p.item) = some r ∧
        (prepararDados cfg e).dispo r.classe = 0) :
    (∀ v ∈ variaveisPedidos (prepararDados cfg e), v.1 ≠ p.item) ∧
    (∀ b : ℚ, Restricao.pedidoLe p.item b ∉ restricoes (prepararDados cfg e)) ∧
    (∀ (σ : Atribuicao) (ln : LinhaResultado),
      ln ∈ extrair (prepararDados cfg e) σ → ln.tipo = "PEDIDO" →
        ln.item ≠ p.item) := by
  have hlim : limiteAtendimento (prepararDados cfg e) p ≤ 0 := by
    rw [limiteAtendimento]
    rcases hcase with hnone | ⟨r, hsome, hdisp⟩
    · rw [hnone]
    · rw [hsome]
      exact le_trans (min_le_right _ _) (le_of_eq hdisp)
  have hinj := List.inj_on_of_nodup_map hnd
  have hvars : ∀ v ∈ variaveisPedidos (prepararDados cfg e), v.1 ≠ p.item := by
    intro v hv hveq
    obtain ⟨_, q, hqmem, hqpos, hveq2⟩ := mem_variaveisPedidos hv
    have hqi : q.item = p.item := by rw [hveq2] at hveq; exact hveq
    have : q = p := hinj hqmem hp hqi
    rw [this] at hqpos
    linarith
  refine ⟨hvars, ?_, ?_⟩
  · intro b hb
    rw [restricoes] at hb
    rcases List.mem_append.mp hb with hb | hb
    · rcases List.mem_append.mp hb with hb | hb
      · obtain ⟨q, _, hany, heq⟩ := mem_restricoesPedidos hb
        simp only [Restricao.pedidoLe.injEq] at heq
        obtain ⟨v, hv, hveq⟩ := List.any_eq_true.mp hany
        have h2 : v.1 = q.item := by simpa using hveq
        exact hvars v hv (h2.trans heq.1.symm)
      · obtain ⟨c, _, _, heq⟩ := mem_restricoesClasse hb
        cases heq
    · obtain ⟨b2, _, _, d, _, heq⟩ := mem_restricoesDemanda hb
      cases heq
  · intro σ ln hln htipo
    rcases mem_extrair hln with ⟨v, _, r, _, _, heq⟩ | ⟨q, _, hany, _, r, _, heq⟩
    · rw [heq] at htipo
      exact absurd htipo (tipoAlocacao_ne_pedido (prepararDados cfg e))
    · rw [heq]
      intro hitem
      obtain ⟨v, hv, hveq⟩ := List.any_eq_true.mp hany
      have h2 : v.1 = q.item := by simpa using hveq
      have h3 : q.item = p.item := by simpa using hitem
      exact hvars v hv (h2.trans h3)

theorem pedido_ausente_testemunha : Restricao.pedidoLe 3 600 ∉ restricoes P4 := by
  have hnd : ((prepararDados cfgPadrao entradas4).pedidos.map (fun q => q.item)).Nodup := by
    rw [show (prepararDados cfgPadrao entradas4).pedidos = [{ item := 3, qtd := 600 }]
      from P4_pedidos_eval]
    simp
  have hp : (⟨3, 600⟩ : PedidoSku) ∈ (prepararDados cfgPadrao entradas4).pedidos := by
    rw [show (prepararDados cfgPadrao entradas4).pedidos = [{ item := 3, qtd := 600 }]
      from P4_pedidos_eval]
    simp
  have hfind : (prepararDados cfgPadrao entradas4).base.find?
      (fun b => b.item = (⟨3, 600⟩ : PedidoSku).item) = some linha4 := by
    rw [show (prepararDados cfgPadrao entradas4).base = [linha4] from P4_base_eval]
    norm_num [List.find?, linha4]
  have h := pedido_ausente_sem_erro cfgPadrao entradas4 ⟨3, 600⟩ rfl hnd hp
    (by norm_num)
    (Or.inr ⟨linha4, hfind,
      show (prepararDados cfgPadrao entradas4).dispo linha4.classe = 0 from P4_dispo_eval⟩)
  exact h.2.1 600

/-- C8: with demand capping enabled, every base row with an allocation
variable whose SKU has a ceiling gets the explicit constraint
`x <= ceiling`, so every feasible point and every extracted decision row
for that item_id respects the ceiling; a base row whose SKU has no entry
in the ceiling table gets no such constraint. -/
theorem teto_demanda (cfg : Config) (e : Entradas) (r : BaseRow) (d : DemandaRow)
    (hc : cfg.considerar_demanda_historica = true)
    (hr : r ∈ (prepararDados cfg e).base)
    (hvar : (variaveisAloc (prepararDados cfg e)).any
      (fun v => v.1 = r.item_id) = true)
    (hd : (prepararDados cfg e).demanda.find? (fun q => q.item = r.item) = some d) :
    Restricao.demandaLe r.item_id d.demanda_max ∈ restricoes (prepararDados cfg e) ∧
    (∀ σ : Atribuicao, Viavel (prepararDados cfg e) σ →
      σ.x r.item_id ≤ d.demanda_max ∧
      ∀ ln ∈ extrair (prepararDados cfg e) σ, ln.item_id = some r.item_id →
        ln.quantidade ≤ d.demanda_max) ∧
    (∀ r2 ∈ (prepararDados cfg e).base,
      (prepararDados cfg e).demanda.find? (fun q => q.item = r2.item) = none →
      ∀ b : ℚ, Restricao.demandaLe r2.item_id b ∉ restricoes (prepararDados cfg e)) := by
  have hcons : (prepararDados cfg e).considerarDemanda = true := by
    simp [prepararDados, hc]
  have hdne : (prepararDados cfg e).demanda ≠ [] := by
    intro h0; rw [h0] at hd; cases hd
  have hguard :
      ((prepararDados cfg e).considerarDemanda &&
        !(prepararDados cfg e).demanda.isEmpty) = true := by
    rw [hcons]
    cases hl : (prepararDados cfg e).demanda with
    | nil => exact absurd hl hdne
    | cons a t => simp
  have hmem : Restricao.demandaLe r.item_id d.demanda_max ∈
      restricoes (prepararDados cfg e) := by
    rw [restricoes]
    apply List.mem_append_right
    rw [restricoesDemanda, if_pos hguard, List.mem_filterMap]
    refine ⟨r, hr, ?_⟩
    rw [if_pos hvar, hd]
  refine ⟨hmem, ?_, ?_⟩
  · intro σ hviav
    have hsat := hviav.2.2 _ hmem
    rw [satisfaz] at hsat
    refine ⟨hsat, ?_⟩
    intro ln hln hid
    rcases mem_extrair hln with ⟨v, _, _, _, _, heq⟩ | ⟨q, _, _, _, _, _, heq⟩
    · rw [heq] at hid ⊢
      have hv1 : v.1 = r.item_id := by simpa using hid
      simpa [hv1] using hsat
    · rw [heq] at hid
      exact absurd hid (by simp)
  · intro r2 hr2 hnone b hb
    rw [restricoes] at hb
    rcases List.mem_append.mp hb with hb | hb
    · rcases List.mem_append.mp hb with hb | hb
      · obtain ⟨q, _, _, heq⟩ := mem_restricoesPedidos hb
        cases heq
      · obtain ⟨c, _, _, heq⟩ := mem_restricoesClasse hb
        cases heq
    · obtain ⟨b2, hb2, _, d2, hd2, heq⟩ := mem_restricoesDemanda hb
      simp only [Restricao.demandaLe.injEq] at heq
      have hids : r2.item_id = b2.item_id := heq.1
      have h1 : r2.item_id = (r2.item, r2.embalagem) := item_id_estrutura hr2
      have h2 : b2.item_id = (b2.item, b2.embalagem) := item_id_estrutura hb2
      have hitems : b2.item = r2.item := by
        have := h1 ▸ h2 ▸ hids
        exact (Prod.mk.injEq _ _ _ _ |>.mp this).1.symm
      rw [hitems] at hd2
      rw [hd2] at hnone
      cases hnone

theorem teto_demanda_testemunha :
    Restricao.demandaLe (1, "CX 1") 50 ∈ restricoes P8 ∧
    sigmaZero.x (1, "CX 1") ≤ 50 ∧
    Restricao.demandaLe (2, "CX 1") 77 ∉ restricoes P8 := by
  have hmem1 : linha1 ∈ P8.base := by rw [P8_base_eval]; simp
  have hmem2 : linha2 ∈ P8.base := by rw [P8_base_eval]; simp
  have hvar : (variaveisAloc P8).any (fun v => v.1 = linha1.item_id) = true := by
    rw [P8_vars_aloc_eval]; norm_num [linha1]
  have hfind : P8.demanda.find? (fun q => q.item = linha1.item) =
      some { item := 1, demanda_max := 50 } := by
    rw [P8_demanda_eval]; norm_num [List.find?, linha1]
  have hnone : P8.demanda.find? (fun q => q.item = linha2.item) = none := by
    rw [P8_demanda_eval]; norm_num [List.find?, linha2]
  have hviav : Viavel P8 sigmaZero := by
    refine ⟨?_, ?_, ?_⟩
    · rw [P8_vars_pedidos_eval]; norm_num [sigmaZero]
    · rw [P8_vars_aloc_eval]; norm_num [sigmaZero]
    · rw [P8_restricoes_eval]
      intro rr hrr
      simp only [List.mem_cons, List.not_mem_nil, or_false] at hrr
      rcases hrr with rfl | rfl | rfl
      · norm_num [satisfaz, sigmaZero]
      · rw [satisfaz, somaClasse, P8_base_eval, P8_vars_aloc_eval]
        norm_num [dedupKeys, dedupKeysAux, linha1, linha2, sigmaZero]
      · norm_num [satisfaz, sigmaZero]
  have h := teto_demanda cfgDemanda entradas8 linha1 { item := 1, demanda_max := 50 }
    rfl hmem1 hvar hfind
  exact ⟨h.1, (h.2.1 sigmaZero hviav).1, h.2.2 linha2 hmem2 hnone 77⟩

/-- With an empty price table, `resolvePreco` is `none` for every cost
row: the exact lookup, the SKU mean and the global mean are all
undefined. -/
theorem resolvePreco_precos_nil (custos : List CostRow) (c : CostRow) :
    resolvePreco [] custos c = none := rfl

/-- With an empty price table, reconciliation drops every row: each unit's
price stays NaN, so the margin filter removes it. -/
theorem prepararBase_precos_nil (producao : List ProducaoRow)
    (classes : List ClassRow) (custos : List CostRow) (pedidos : List PedidoSku) :
    prepararBase producao classes [] custos pedidos = [] := by
  rw [prepararBase, List.filterMap_eq_nil_iff]
  intro c hc
  cases hfind : classes.find? (fun m => m.item = c.item) with
  | none => simp [hfind]
  | some m => simp [hfind, resolvePreco_precos_nil]

/-- C5 counterexample for the claim's pricing clause: with the price file
absent (and mandatory cost and production tables present and non-empty),
both warnings are logged and the run proceeds, but the reconciled base is
EMPTY: no unit receives a class-mean (or any) price, because the mean of
the empty price table is NaN and every row is dropped. -/
theorem degradacao_precos_contraexemplo :
    P5.avisoPrecos = true ∧ P5.avisoPedidos = true ∧
    carregarCustos entradas5.custosArquivo ≠ [] ∧
    carregarProducao entradas5.producaoArquivo ≠ [] ∧
    P5.base = [] ∧ P5.pedidos = [] := by
  refine ⟨rfl, rfl, ?_, ?_, ?_, rfl⟩
  · norm_num [carregarCustos, dedupKeys, dedupKeysAux, entradas5, entradas1]
    simp
  · norm_num [carregarProducao, sumByKey, dedupKeys, dedupKeysAux, entradas5,
      entradas1]
  · show prepararBase (carregarProducao entradas5.producaoArquivo) entradas5.classes
      (carregarPrecos entradas5.precosArquivo).2 (carregarCustos entradas5.custosArquivo)
      (carregarPedidos entradas5.pedidosArquivo).2 = []
    rw [show (carregarPrecos entradas5.precosArquivo).2 = [] from rfl]
    exact prepararBase_precos_nil _ _ _ _

/-- C5 amended: if the price table file is absent the run logs a warning
and proceeds (no abort) with an empty price table, under which every unit
lacks a resolvable price and is dropped from the base; if the orders file
is absent the run logs a warning and proceeds under the zero-order
assumption. -/
theorem degradacao_arquivos_ausentes (cfg : Config) (e : Entradas) :
    (e.precosArquivo = none →
      (prepararDados cfg e).avisoPrecos = true ∧ (prepararDados cfg e).base = []) ∧
    (e.pedidosArquivo = none →
      (prepararDados cfg e).avisoPedidos = true ∧
      (prepararDados cfg e).pedidos = [] ∧
      ∀ r ∈ (prepararDados cfg e).base, r.qtd_pedida = 0) := by
  constructor
  · intro hp
    constructor
    · simp [prepararDados, hp, carregarPrecos]
    · show prepararBase (carregarProducao e.producaoArquivo) e.classes
        (carregarPrecos e.precosArquivo).2 (carregarCustos e.custosArquivo)
        (carregarPedidos e.pedidosArquivo).2 = []
      rw [hp, show (carregarPrecos none).2 = [] from rfl]
      exact prepararBase_precos_nil _ _ _ _
  · intro hq
    have hzero : (carregarPedidos e.pedidosArquivo).2 = [] := by rw [hq]; rfl
    refine ⟨?_, ?_, ?_⟩
    · simp [prepararDados, hq, carregarPedidos]
    · show (carregarPedidos e.pedidosArquivo).2 = []
      exact hzero
    · intro r hr
      obtain ⟨c, _, m, _, _, p, _, _, heq⟩ := mem_prepararBase hr
      subst heq
      show qtdPedidaSku (carregarPedidos e.pedidosArquivo).2 c.item = 0
      rw [hzero]
      rfl

theorem degradacao_testemunha :
    (prepararDados cfgPadrao entradas5).avisoPrecos = true ∧
    (prepararDados cfgPadrao entradas5).base = [] ∧
    (prepararDados cfgPadrao entradas5).avisoPedidos = true ∧
    (prepararDados cfgPadrao entradas5).pedidos = [] := by
  have h := degradacao_arquivos_ausentes cfgPadrao entradas5
  exact ⟨(h.1 rfl).1, (h.1 rfl).2, (h.2 rfl).1, (h.2 rfl).2.1⟩

end Realocacao
